import Mathlib

/-!
Verification of the tk-katana integration plugin.

The repository has two source files:
* `hooks/tk-katana_actions.py` — the loader hook class `KatanaActions` with
  `generate_actions`, `execute_action` and the helpers `_open_project` and
  `_create_node`;
* `engine.py` — the engine class `KatanaEngine` with `_define_qt_base`,
  `launch_command` and the logging methods `log_debug`, `log_info`,
  `log_error`, `log_warning`.

This file embeds that code shallowly.  External services (the filesystem,
the sgtk template resolver, the Katana `NodegraphAPI`, the PyQt4 import)
are modelled as explicit inputs; the host-API side effects performed by a
call are returned as an explicit trace.  Python dictionaries carrying
string keys are modelled as association lists with unique keys.
-/

namespace TkKatana

/-- One entry of the list returned by `KatanaActions.generate_actions`:
a Python dict with keys `name`, `params`, `caption`, `description`.
In the source every descriptor has `params: None`, modelled as `Option`. -/
structure ActionInstance where
  name : String
  params : Option String
  caption : String
  description : String
deriving DecidableEq, Repr

/-- `KatanaActions.generate_actions` (hooks/tk-katana_actions.py, lines 13-80).
For each of the four recognised action names contained in `actions` it appends
one fixed descriptor, in the source's textual order; other names are ignored.
(The `log_debug` call at the top only prints; it does not affect the result.) -/
def generate_actions (actions : List String) : List ActionInstance :=
  (if actions.contains "open_project" then
    [{ name := "open_project", params := none,
       caption := "Open Project",
       description := "This will open the Katana project file." }]
   else []) ++
  (if actions.contains "import_look_file" then
    [{ name := "import_look_file", params := none,
       caption := "Import Look File",
       description := "This will create an LookFileAssign node corresponding to this published Look File." }]
   else []) ++
  (if actions.contains "create_node_Alembic_In" then
    [{ name := "create_node_Alembic_In", params := none,
       caption := "Import Alembic",
       description := "This will create an Alembic_In node corresponding to this cache." }]
   else []) ++
  (if actions.contains "create_node_ImageRead" then
    [{ name := "create_node_ImageRead", params := none,
       caption := "Import image",
       description := "Creates an ImageRead node for the selected item." }]
   else [])

/-- The four action names `generate_actions` recognises. -/
def knownActionNames : List String :=
  ["open_project", "import_look_file", "create_node_Alembic_In", "create_node_ImageRead"]

/-- The external world seen by `_create_node`: `os.path.exists`, and the
sgtk template resolver (`tk.template_from_path(path).name` and
`template.get_fields(path)`).  A resolved fields dict is an association
list with (as for every Python dict) pairwise distinct keys. -/
structure Env where
  pathExists : String → Bool
  templateNameOf : String → String
  fieldsOf : String → List (String × String)

/-- Python `d.has_key(k)` on a string-keyed dict. -/
def has_key (d : List (String × String)) (k : String) : Bool :=
  d.any (fun kv => kv.1 == k)

/-- Python `d.pop(k)`'s effect on a string-keyed dict: the entry with key
`k` is removed (a dict holds at most one). -/
def dict_pop (d : List (String × String)) (k : String) : List (String × String) :=
  d.eraseP (fun kv => kv.1 == k)

/-- The value written into the created node's parameter: the source builds
`parameter_dict = {"template": template.name, "fields": fields}` and passes
`str(parameter_dict)` to `setValue`.  We keep the dict structurally; the
stringification is an injective rendering of this structure. -/
structure ParamValue where
  template : String
  fields : List (String × String)
deriving DecidableEq, Repr

/-- One node-creation interaction with the host `NodegraphAPI`, folding the
`GetRootNode` / `CreateNode(node_type, parent=root)` /
`getParameter(asset_parameter)` / `setValue(str(parameter_dict), 0)`
sequence performed by `_create_node` on the node it creates. -/
structure NodeCreationCall where
  nodeType : String
  parentIsRoot : Bool
  assetParameter : String
  value : ParamValue
deriving DecidableEq, Repr

/-- `KatanaActions._create_node` (hooks/tk-katana_actions.py, lines 121-146).
Returns the trace of node creations together with the Python return value:
an `Exception` when the path does not exist on disk, otherwise the created
node's handle.  The hardcoded `project_path` / `tank_from_path` lookup only
produces the `tk` handle modelled inside `Env`. -/
def create_node (env : Env) (node_type path : String)
    (asset_parameter : String) :
    List NodeCreationCall × Except String NodeCreationCall :=
  if !(env.pathExists path) then
    ([], .error ("File not found on disk - '" ++ path ++ "'"))
  else
    let fields := env.fieldsOf path
    let fields := if has_key fields "SEQ" then dict_pop fields "SEQ" else fields
    let parameter_dict : ParamValue :=
      { template := env.templateNameOf path, fields := fields }
    let node : NodeCreationCall :=
      { nodeType := node_type, parentIsRoot := true,
        assetParameter := asset_parameter, value := parameter_dict }
    ([node], .ok node)

/-- `KatanaActions._open_project` (hooks/tk-katana_actions.py, lines 116-119):
a stub whose body is `return`; it performs no host call and returns `None`. -/
def open_project (path : String) : List NodeCreationCall × Except String Unit :=
  ([], .ok ())

/-- Sequence two effectful steps: the second runs only when the first did
not raise, and the traces accumulate (Python statement sequencing). -/
def seqStep (a b : List NodeCreationCall × Except String Unit) :
    List NodeCreationCall × Except String Unit :=
  match a with
  | (c, .error e) => (c, .error e)
  | (c, .ok ()) => (c ++ b.1, b.2)

/-- Drop a step's return value (Python discards the value of an expression
statement such as `self._create_node(...)`). -/
def discardRet (a : List NodeCreationCall × Except String NodeCreationCall) :
    List NodeCreationCall × Except String Unit :=
  (a.1, a.2.map (fun _ => ()))

/-- `KatanaActions.execute_action` (hooks/tk-katana_actions.py, lines 83-110).
`path` is the result of the external `self.get_publish_path(sg_publish_data)`.
The four `if` statements run in sequence (they are not `elif`); the method
body ends without a `return`, so the Python return value is `None`
(modelled `Option NodeCreationCall` to record that no handle is returned). -/
def execute_action (env : Env) (name path : String) :
    List NodeCreationCall × Except String (Option NodeCreationCall) :=
  let s0 : List NodeCreationCall × Except String Unit := ([], .ok ())
  let s1 := if name == "open_project" then seqStep s0 (open_project path) else s0
  let s2 := if name == "import_look_file" then seqStep s1 (open_project path) else s1
  let s3 := if name == "create_node_Alembic_In" then
      seqStep s2 (discardRet (create_node env "Alembic_In" path "abcAsset"))
    else s2
  let s4 := if name == "create_node_ImageRead" then
      seqStep s3 (discardRet (create_node env "ImageRead" path "file"))
    else s3
  (s4.1, s4.2.map (fun _ => none))

end TkKatana

namespace KatanaEngine

/-- The slice of the engine's configuration that its logging reads:
`self.get_setting("debug_logging", False)`. -/
structure Settings where
  debug_logging : Bool
deriving DecidableEq, Repr

/-- `KatanaEngine.log_debug` (engine.py, lines 126-128): prints
`"Shotgun Debug: %s" % msg` only when the `debug_logging` setting is true.
The result is the list of lines written to standard output. -/
def log_debug (s : Settings) (msg : String) : List String :=
  if s.debug_logging then ["Shotgun Debug: " ++ msg] else []

/-- `KatanaEngine.log_info` (engine.py, lines 130-131): unconditionally
prints `"Shotgun: %s" % msg`. -/
def log_info (s : Settings) (msg : String) : List String :=
  ["Shotgun: " ++ msg]

/-- `KatanaEngine._display_message` (engine.py, lines 116-117). -/
def display_message (s : Settings) (msg : String) : List String :=
  log_info s msg

/-- `KatanaEngine.log_error` (engine.py, lines 133-135): calls
`self._display_message(msg)` then prints `"Shotgun Error: %s" % msg`,
unconditionally. -/
def log_error (s : Settings) (msg : String) : List String :=
  display_message s msg ++ ["Shotgun Error: " ++ msg]

/-- `KatanaEngine.log_warning` (engine.py, lines 137-138): unconditionally
prints `str(msg)`, with no prefix. -/
def log_warning (s : Settings) (msg : String) : List String :=
  [msg]

/-- `KatanaEngine.launch_command` (engine.py, lines 119-124).  Callbacks
are opaque tokens (`Nat`); the callback map `self._callback_map` is an
association list.  The result is the lines printed, the callbacks invoked,
wrapped in `Except` to record that the missing-callback branch returns
normally instead of raising. -/
def launch_command (s : Settings) (cb_map : List (String × Nat))
    (cmd_id : String) : Except String (List String × List Nat) :=
  match cb_map.lookup cmd_id with
  | none => .ok (log_error s ("No callback found for id: " ++ cmd_id), [])
  | some callback => .ok ([], [callback])

/-- A UI-toolkit handle as seen through `_define_qt_base`'s result: either a
really imported PyQt4 object, or an instance of the `QTProxy` stub class. -/
inductive QtHandle where
  | real (modName : String)
  | proxy
deriving DecidableEq, Repr

/-- The message of the `tank.TankError` raised by `QTProxy.__getattr__`
(engine.py, lines 31-35; the source spells it as adjacent string literals). -/
def qtProxyError : String :=
  "Looks like you are trying to run an App that uses a QT based UI, however the Katana engine could not find a PyQt installation!"

/-- Python attribute access on a toolkit handle.  On a real module it
yields the attribute; on a `QTProxy` instance, `__getattr__` raises
`tank.TankError` — the failure is deferred to this access, constructing
the proxy itself never raises. -/
def QtHandle.getattr : QtHandle → String → Except String String
  | .real m, attr => .ok (m ++ "." ++ attr)
  | .proxy, _ => .error qtProxyError

/-- The dictionary `_define_qt_base` returns: keys `qt_core`, `qt_gui`,
`dialog_base` (the latter is `None` until a successful import sets it). -/
structure QtBase where
  qt_core : QtHandle
  qt_gui : QtHandle
  dialog_base : Option QtHandle
deriving DecidableEq, Repr

/-- Outcome of the `try` block of `_define_qt_base`: the PyQt4 import and
hot-patching succeed, or the import raises `ImportError`, or some other
exception `e` escapes the block. -/
inductive ImportOutcome where
  | ok
  | importError
  | otherError (e : String)
deriving DecidableEq, Repr

/-- `KatanaEngine._define_qt_base` (engine.py, lines 22-60).  `base` starts
as two `QTProxy` instances and `dialog_base = None`; on a successful import
the three entries are replaced by `QtCore`, `QtGui` and `QtGui.QDialog`;
`except ImportError: pass` keeps the stubs silently; any other exception is
logged (`log_warning` then `log_debug` of the traceback) and the stubs are
kept.  Every branch falls through to `return base`: the probe itself never
raises, which is why the result type carries no `Except`. -/
def define_qt_base (s : Settings) (o : ImportOutcome) : QtBase × List String :=
  let base : QtBase := { qt_core := .proxy, qt_gui := .proxy, dialog_base := none }
  match o with
  | .ok =>
      ({ qt_core := .real "QtCore", qt_gui := .real "QtGui",
         dialog_base := some (.real "QtGui.QDialog") },
       log_debug s "Successfully initialized PyQt '%s' located in %s.")
  | .importError => (base, [])
  | .otherError e =>
      (base,
       log_warning s ("Error setting up PyQt. PyQt based UI support will not be available: " ++ e)
         ++ log_debug s "traceback")

end KatanaEngine

namespace TkKatana

/-- The four descriptors of `generate_actions`, in the source's textual
order. -/
def allActionInstances : List ActionInstance :=
  [{ name := "open_project", params := none,
     caption := "Open Project",
     description := "This will open the Katana project file." },
   { name := "import_look_file", params := none,
     caption := "Import Look File",
     description := "This will create an LookFileAssign node corresponding to this published Look File." },
   { name := "create_node_Alembic_In", params := none,
     caption := "Import Alembic",
     description := "This will create an Alembic_In node corresponding to this cache." },
   { name := "create_node_ImageRead", params := none,
     caption := "Import image",
     description := "Creates an ImageRead node for the selected item." }]

/-- `generate_actions` is the filter of the fixed descriptor list by
membership of the descriptor's name in the requested actions. -/
theorem generate_actions_eq_filter (actions : List String) :
    generate_actions actions =
      allActionInstances.filter (fun d => actions.contains d.name) := by
  simp only [generate_actions, allActionInstances, List.filter_cons, List.filter_nil]
  cases b1 : actions.contains "open_project" <;>
    cases b2 : actions.contains "import_look_file" <;>
    cases b3 : actions.contains "create_node_Alembic_In" <;>
    cases b4 : actions.contains "create_node_ImageRead" <;>
    simp [b1, b2, b3, b4]

/-- In a list with pairwise-distinct keys, erasing the entry at key `k`
leaves no entry with key `k`. -/
theorem mem_eraseP_key_ne (l : List (String × String)) (k : String)
    (h : (l.map Prod.fst).Nodup) :
    ∀ p ∈ l.eraseP (fun kv => kv.1 == k), p.1 ≠ k := by
  induction l with
  | nil => intro p hp; simp at hp
  | cons a t ih =>
    simp only [List.map_cons, List.nodup_cons, List.mem_map] at h
    by_cases hk : a.1 = k
    · rw [List.eraseP_cons_of_pos (by simp [hk])]
      intro p hp hpk
      exact h.1 ⟨p, hp, by rw [hpk, hk]⟩
    · rw [List.eraseP_cons_of_neg (by simp [hk])]
      intro p hp
      rcases List.mem_cons.mp hp with rfl | hp'
      · exact hk
      · exact ih h.2 p hp'

/-- Erasing the entry at key `k` does not change lookups at other keys. -/
theorem lookup_eraseP_ne (l : List (String × String)) (k k' : String)
    (hne : k' ≠ k) :
    (l.eraseP (fun kv => kv.1 == k)).lookup k' = l.lookup k' := by
  induction l with
  | nil => rfl
  | cons a t ih =>
    obtain ⟨a1, a2⟩ := a
    by_cases hk : a1 = k
    · rw [List.eraseP_cons_of_pos (by simp [hk])]
      rw [List.lookup_cons]
      have : (k' == a1) = false := by simp [hk, hne]
      simp [this]
    · rw [List.eraseP_cons_of_neg (by simp [hk])]
      rw [List.lookup_cons, List.lookup_cons]
      cases hka : k' == a1 <;> simp [hka, ih]

/-- C1: for every input list of action names, each name of the known set
{open_project, import_look_file, create_node_Alembic_In,
create_node_ImageRead} that occurs in the input contributes exactly one
descriptor with that `name`, and every descriptor produced has a non-empty
caption and description; a name outside the set contributes no
descriptor. -/
theorem C1_generate_actions_exactly_one (actions : List String) (n : String) :
    ((generate_actions actions).countP (fun a => a.name == n) =
      if knownActionNames.contains n && actions.contains n then 1 else 0)
    ∧ (∀ a ∈ generate_actions actions, a.caption ≠ "" ∧ a.description ≠ "") := by
  constructor
  · by_cases h1 : n = "open_project"
    · subst h1
      by_cases m1 : "open_project" ∈ actions <;> by_cases m2 : "import_look_file" ∈ actions <;>
        by_cases m3 : "create_node_Alembic_In" ∈ actions <;>
        by_cases m4 : "create_node_ImageRead" ∈ actions <;>
        simp_all [generate_actions, knownActionNames, List.countP_append, List.countP_cons]
    · by_cases h2 : n = "import_look_file"
      · subst h2
        by_cases m1 : "open_project" ∈ actions <;> by_cases m2 : "import_look_file" ∈ actions <;>
          by_cases m3 : "create_node_Alembic_In" ∈ actions <;>
          by_cases m4 : "create_node_ImageRead" ∈ actions <;>
          simp_all [generate_actions, knownActionNames, List.countP_append, List.countP_cons]
      · by_cases h3 : n = "create_node_Alembic_In"
        · subst h3
          by_cases m1 : "open_project" ∈ actions <;> by_cases m2 : "import_look_file" ∈ actions <;>
            by_cases m3 : "create_node_Alembic_In" ∈ actions <;>
            by_cases m4 : "create_node_ImageRead" ∈ actions <;>
            simp_all [generate_actions, knownActionNames, List.countP_append, List.countP_cons]
        · by_cases h4 : n = "create_node_ImageRead"
          · subst h4
            by_cases m1 : "open_project" ∈ actions <;>
              by_cases m2 : "import_look_file" ∈ actions <;>
              by_cases m3 : "create_node_Alembic_In" ∈ actions <;>
              by_cases m4 : "create_node_ImageRead" ∈ actions <;>
              simp_all [generate_actions, knownActionNames, List.countP_append, List.countP_cons]
          · have e1 : ("open_project" == n) = false := by
              simp only [beq_eq_false_iff_ne]; exact fun hh => h1 hh.symm
            have e2 : ("import_look_file" == n) = false := by
              simp only [beq_eq_false_iff_ne]; exact fun hh => h2 hh.symm
            have e3 : ("create_node_Alembic_In" == n) = false := by
              simp only [beq_eq_false_iff_ne]; exact fun hh => h3 hh.symm
            have e4 : ("create_node_ImageRead" == n) = false := by
              simp only [beq_eq_false_iff_ne]; exact fun hh => h4 hh.symm
            by_cases m1 : "open_project" ∈ actions <;>
              by_cases m2 : "import_look_file" ∈ actions <;>
              by_cases m3 : "create_node_Alembic_In" ∈ actions <;>
              by_cases m4 : "create_node_ImageRead" ∈ actions <;>
              simp_all [generate_actions, knownActionNames, List.countP_append, List.countP_cons]
  · intro a ha
    rw [generate_actions_eq_filter] at ha
    have hmem := List.mem_of_mem_filter ha
    simp only [allActionInstances, List.mem_cons, List.mem_singleton,
      List.not_mem_nil, or_false] at hmem
    rcases hmem with rfl | rfl | rfl | rfl
    · exact ⟨by decide, by decide⟩
    · exact ⟨by decide, by decide⟩
    · exact ⟨by decide, by decide⟩
    · exact ⟨by decide, by decide⟩

/-- C9: the output of `generate_actions` depends only on which of the four
known names are contained in the input list (so it is invariant under
permutation and duplication of the input), and it is always a sublist of
the fixed four-descriptor list — hence in the fixed order, each descriptor
at most once, with length at most 4. -/
theorem C9_generate_actions_membership_invariance (a b : List String)
    (h : ∀ s ∈ knownActionNames, a.contains s = b.contains s) :
    generate_actions a = generate_actions b
    ∧ (generate_actions a).Sublist allActionInstances
    ∧ (generate_actions a).length ≤ 4 := by
  have h1 := h "open_project" (by decide)
  have h2 := h "import_look_file" (by decide)
  have h3 := h "create_node_Alembic_In" (by decide)
  have h4 := h "create_node_ImageRead" (by decide)
  have hsub : (generate_actions a).Sublist allActionInstances := by
    rw [generate_actions_eq_filter]; exact List.filter_sublist _
  refine ⟨?_, hsub, ?_⟩
  · simp only [generate_actions, h1, h2, h3, h4]
  · exact le_trans hsub.length_le (by decide)

/-- A test environment in which every path exists on disk. -/
def envAllPaths : Env :=
  { pathExists := fun _ => true,
    templateNameOf := fun _ => "maya_shot_publish",
    fieldsOf := fun _ => [("Shot", "sh010"), ("SEQ", "101"), ("version", "3")] }

/-- A test environment in which no path exists on disk. -/
def envNoPaths : Env :=
  { pathExists := fun _ => false,
    templateNameOf := fun _ => "t",
    fieldsOf := fun _ => [] }

/-- The node `create_node` creates and configures when the path exists. -/
def created_call (env : Env) (node_type path ap : String) : NodeCreationCall :=
  { nodeType := node_type, parentIsRoot := true, assetParameter := ap,
    value := { template := env.templateNameOf path,
               fields := if has_key (env.fieldsOf path) "SEQ"
                         then dict_pop (env.fieldsOf path) "SEQ"
                         else env.fieldsOf path } }

/-- When the path exists, `create_node` performs exactly one node creation
and returns the created node's handle. -/
theorem create_node_ok (env : Env) (t path ap : String)
    (h : env.pathExists path = true) :
    create_node env t path ap
      = ([created_call env t path ap], .ok (created_call env t path ap)) := by
  simp [create_node, created_call, h]

/-- C2 counterexample: with a path that does not exist on disk,
`execute_action` with name `open_project` does not raise: it dispatches to
the no-op `_open_project` and returns `None` normally, so the claim's
quantification over every action name fails. -/
theorem C2_counterexample_open_project_no_failure :
    envNoPaths.pathExists "/missing.abc" = false
    ∧ execute_action envNoPaths "open_project" "/missing.abc" = ([], .ok none) :=
  ⟨rfl, by simp [execute_action, seqStep, open_project, Except.map]⟩

/-- C2 (amended): for the two node-creation action names, `execute_action`
with a path that does not exist on disk raises the generic
`File not found on disk` exception and performs no node-creation call. -/
theorem C2_amended_node_actions_fail (env : Env) (name path : String)
    (h : env.pathExists path = false)
    (hn : name = "create_node_Alembic_In" ∨ name = "create_node_ImageRead") :
    execute_action env name path
      = ([], .error ("File not found on disk - '" ++ path ++ "'")) := by
  rcases hn with rfl | rfl <;>
    simp [execute_action, create_node, seqStep, discardRet, Except.map, h]

/-- C2 witness: the amended statement at a concrete environment. -/
theorem C2_amended_node_actions_fail_witness :
    envNoPaths.pathExists "/missing.abc" = false
    ∧ ("create_node_Alembic_In" = "create_node_Alembic_In"
        ∨ "create_node_Alembic_In" = "create_node_ImageRead")
    ∧ execute_action envNoPaths "create_node_Alembic_In" "/missing.abc"
        = ([], .error ("File not found on disk - '" ++ "/missing.abc" ++ "'")) :=
  ⟨rfl, Or.inl rfl,
    C2_amended_node_actions_fail envNoPaths "create_node_Alembic_In" "/missing.abc"
      rfl (Or.inl rfl)⟩

/-- C3: with an existing path, `execute_action "create_node_Alembic_In"`
issues exactly one node-creation call, of type `Alembic_In` with the
parameter `abcAsset` set, and `execute_action "create_node_ImageRead"`
issues exactly one node-creation call, of type `ImageRead` with the
parameter `file` set. -/
theorem C3_execute_action_create_node (env : Env) (path : String)
    (h : env.pathExists path = true) :
    (∃ c, execute_action env "create_node_Alembic_In" path = ([c], .ok none)
        ∧ c.nodeType = "Alembic_In" ∧ c.assetParameter = "abcAsset")
    ∧ (∃ c, execute_action env "create_node_ImageRead" path = ([c], .ok none)
        ∧ c.nodeType = "ImageRead" ∧ c.assetParameter = "file") := by
  refine ⟨⟨created_call env "Alembic_In" path "abcAsset", ?_, rfl, rfl⟩,
          ⟨created_call env "ImageRead" path "file", ?_, rfl, rfl⟩⟩ <;>
    simp [execute_action, seqStep, discardRet, Except.map,
      create_node_ok env _ path _ h]

/-- C3 witness: the theorem applied to a concrete environment. -/
theorem C3_execute_action_create_node_witness :
    envAllPaths.pathExists "/shot/sh010.abc" = true
    ∧ (∃ c, execute_action envAllPaths "create_node_Alembic_In" "/shot/sh010.abc"
          = ([c], .ok none) ∧ c.nodeType = "Alembic_In" ∧ c.assetParameter = "abcAsset")
    ∧ (∃ c, execute_action envAllPaths "create_node_ImageRead" "/shot/sh010.abc"
          = ([c], .ok none) ∧ c.nodeType = "ImageRead" ∧ c.assetParameter = "file") :=
  ⟨rfl, C3_execute_action_create_node envAllPaths "/shot/sh010.abc" rfl⟩

/-- C4: the `SEQ` field, when present in the resolved template fields, is
removed before the parameter dict is serialized: the value written by
`_create_node` into the node's asset parameter contains no `SEQ` entry,
while every other field of the resolved mapping is kept unchanged. -/
theorem C4_seq_field_removed (env : Env) (node_type path ap : String)
    (h : ((env.fieldsOf path).map Prod.fst).Nodup) :
    ∀ c ∈ (create_node env node_type path ap).1,
      c.value.fields.lookup "SEQ" = none
      ∧ ∀ k, k ≠ "SEQ" → c.value.fields.lookup k = (env.fieldsOf path).lookup k := by
  intro c hc
  cases hpe : env.pathExists path
  · simp [create_node, hpe] at hc
  · simp [create_node, hpe] at hc
    subst hc
    by_cases hseq : has_key (env.fieldsOf path) "SEQ"
    · simp only [created_call, hseq, if_true, dict_pop]
      constructor
      · rw [List.lookup_eq_none_iff]
        intro p hp
        have hne := mem_eraseP_key_ne (env.fieldsOf path) "SEQ" h p hp
        simp only [bne_iff_ne]
        exact fun hh => hne hh.symm
      · intro k hk
        exact lookup_eraseP_ne (env.fieldsOf path) "SEQ" k hk
    · simp only [created_call, hseq, if_false]
      constructor
      · rw [List.lookup_eq_none_iff]
        intro p hp
        simp only [bne_iff_ne]
        intro hh
        apply hseq
        simp only [has_key, List.any_eq_true]
        exact ⟨p, hp, beq_iff_eq.mpr hh.symm⟩
      · intro k hk
        rfl

/-- C4 witness: with a resolved fields dict containing `SEQ`, the value
written by the created node call has no `SEQ` entry and keeps `Shot`. -/
theorem C4_seq_field_removed_witness :
    ((envAllPaths.fieldsOf "/shot/sh010.abc").map Prod.fst).Nodup
    ∧ ∀ c ∈ (create_node envAllPaths "Alembic_In" "/shot/sh010.abc" "abcAsset").1,
        c.value.fields.lookup "SEQ" = none
        ∧ ∀ k, k ≠ "SEQ" →
            c.value.fields.lookup k
              = (envAllPaths.fieldsOf "/shot/sh010.abc").lookup k :=
  ⟨by decide, C4_seq_field_removed envAllPaths "Alembic_In" "/shot/sh010.abc" "abcAsset"
    (by decide)⟩

/-- C5 counterexample: at a concrete environment where the path exists,
`execute_action "create_node_Alembic_In"` creates one node but its Python
return value is `None`, not the created node's handle (the method body has
no `return` statement), so the claim that `execute_action` returns the
handle fails. -/
theorem C5_counterexample_returns_none :
    (execute_action envAllPaths "create_node_Alembic_In" "/shot/sh010.abc").2
      = Except.ok none
    ∧ (execute_action envAllPaths "create_node_Alembic_In" "/shot/sh010.abc").1.length
      = 1 := by
  constructor
  · simp [execute_action, seqStep, discardRet, Except.map,
      create_node_ok envAllPaths _ "/shot/sh010.abc" _ rfl]
  · simp [execute_action, seqStep, discardRet, Except.map,
      create_node_ok envAllPaths _ "/shot/sh010.abc" _ rfl]

/-- C5 (amended): for both node-creation actions with an existing path,
the helper `_create_node` creates and configures one node and returns its
handle, but `execute_action` discards that handle and returns `None`. -/
theorem C5_amended_create_node_returns_handle (env : Env) (path : String)
    (h : env.pathExists path = true) :
    (∃ c, create_node env "Alembic_In" path "abcAsset" = ([c], .ok c))
    ∧ (∃ c, create_node env "ImageRead" path "file" = ([c], .ok c))
    ∧ (execute_action env "create_node_Alembic_In" path).2 = .ok none
    ∧ (execute_action env "create_node_ImageRead" path).2 = .ok none := by
  refine ⟨⟨created_call env "Alembic_In" path "abcAsset", create_node_ok env _ path _ h⟩,
          ⟨created_call env "ImageRead" path "file", create_node_ok env _ path _ h⟩,
          ?_, ?_⟩ <;>
    simp [execute_action, seqStep, discardRet, Except.map, create_node_ok env _ path _ h]

/-- C5 witness: the amended statement at a concrete environment. -/
theorem C5_amended_create_node_returns_handle_witness :
    envAllPaths.pathExists "/shot/sh010.abc" = true
    ∧ (∃ c, create_node envAllPaths "Alembic_In" "/shot/sh010.abc" "abcAsset" = ([c], .ok c))
    ∧ (∃ c, create_node envAllPaths "ImageRead" "/shot/sh010.abc" "file" = ([c], .ok c))
    ∧ (execute_action envAllPaths "create_node_Alembic_In" "/shot/sh010.abc").2 = .ok none
    ∧ (execute_action envAllPaths "create_node_ImageRead" "/shot/sh010.abc").2 = .ok none :=
  ⟨rfl, C5_amended_create_node_returns_handle envAllPaths "/shot/sh010.abc" rfl⟩

/-- C10: `execute_action "import_look_file"` dispatches to the no-op
`_open_project` stub: it performs no node-creation call and returns `None`
for every publish data and path, even though the descriptor
`generate_actions` produces for that action describes creating a
`LookFileAssign` node. -/
theorem C10_import_look_file_no_node (env : Env) (path : String) :
    execute_action env "import_look_file" path = ([], .ok none)
    ∧ open_project path = ([], .ok ())
    ∧ ∀ a ∈ generate_actions ["import_look_file"],
        ∃ pre post, a.description = pre ++ ("LookFileAssign" ++ post) := by
  refine ⟨?_, rfl, ?_⟩
  · simp [execute_action, seqStep, open_project, Except.map]
  · intro a ha
    simp [generate_actions] at ha
    subst ha
    exact ⟨"This will create an ", " node corresponding to this published Look File.", rfl⟩

/-- C9 witness: a duplicated, permuted input gives the same descriptors. -/
theorem C9_generate_actions_membership_invariance_witness :
    generate_actions ["create_node_ImageRead", "open_project", "open_project"]
      = generate_actions ["open_project", "create_node_ImageRead"]
    ∧ (generate_actions ["create_node_ImageRead", "open_project", "open_project"]).Sublist
        allActionInstances
    ∧ (generate_actions ["create_node_ImageRead", "open_project", "open_project"]).length ≤ 4 :=
  C9_generate_actions_membership_invariance
    ["create_node_ImageRead", "open_project", "open_project"]
    ["open_project", "create_node_ImageRead"]
    (by decide)

end TkKatana

namespace KatanaEngine

/-- C6 counterexample: with the `debug_logging` setting false, `log_info`
still prints (it is not gated on the flag), and `log_warning` prints the
bare message, which carries none of the three fixed prefixes — so the
claim that every logging method is gated on the flag and uses the fixed
prefixes fails. -/
theorem C6_counterexample_logging_not_gated :
    log_info { debug_logging := false } "msg" = ["Shotgun: msg"]
    ∧ log_warning { debug_logging := false } "msg" = ["msg"]
    ∧ "msg" ≠ "Shotgun Debug: msg"
    ∧ "msg" ≠ "Shotgun: msg"
    ∧ "msg" ≠ "Shotgun Error: msg" :=
  ⟨rfl, rfl, by decide, by decide, by decide⟩

/-- C6 (amended): only `log_debug` is gated on the `debug_logging` setting
(printing `Shotgun Debug:`-prefixed lines exactly when the flag is set);
`log_info` unconditionally prints with prefix `Shotgun:`; `log_error`
unconditionally prints the `log_info` line (via `_display_message`)
followed by a `Shotgun Error:`-prefixed line; `log_warning`
unconditionally prints `str(msg)` with no prefix. -/
theorem C6_amended_logging_behaviour (s : Settings) (m : String) :
    (log_debug s m = if s.debug_logging then ["Shotgun Debug: " ++ m] else [])
    ∧ log_info s m = ["Shotgun: " ++ m]
    ∧ log_error s m = log_info s m ++ ["Shotgun Error: " ++ m]
    ∧ log_warning s m = [m] :=
  ⟨rfl, rfl, rfl, rfl⟩

/-- C7: when the command id has no callback in the callback map,
`launch_command` logs an error line and returns normally (`.ok`), raising
no exception and invoking no callback. -/
theorem C7_launch_command_missing_swallowed (s : Settings)
    (cb_map : List (String × Nat)) (cmd_id : String)
    (h : cb_map.lookup cmd_id = none) :
    launch_command s cb_map cmd_id
      = .ok (log_error s ("No callback found for id: " ++ cmd_id), []) := by
  simp [launch_command, h]

/-- C7 witness: a concrete map that lacks the requested id. -/
theorem C7_launch_command_missing_swallowed_witness :
    ([(("cmd_a" : String), (7 : Nat))].lookup "cmd_b" = none)
    ∧ launch_command { debug_logging := false } [("cmd_a", 7)] "cmd_b"
        = .ok (log_error { debug_logging := false }
            ("No callback found for id: " ++ "cmd_b"), []) :=
  ⟨by decide,
    C7_launch_command_missing_swallowed { debug_logging := false }
      [("cmd_a", 7)] "cmd_b" (by decide)⟩

/-- C8: `_define_qt_base` returns a dictionary on every outcome of the
PyQt4 import attempt — it never raises at probe time.  When the import
succeeds the `qt_core`, `qt_gui` and `dialog_base` entries are the real
toolkit handles; otherwise both toolkit entries are `QTProxy` stubs and
`dialog_base` stays `None`.  Attribute access on a stub — and only that
access — raises the descriptive toolkit error, while access on a real
handle succeeds (deferred failure, not eager). -/
theorem C8_define_qt_base_deferred_failure (s : Settings) (o : ImportOutcome) :
    ((define_qt_base s o).1 =
      match o with
      | .ok => { qt_core := .real "QtCore", qt_gui := .real "QtGui",
                 dialog_base := some (.real "QtGui.QDialog") }
      | _ => { qt_core := .proxy, qt_gui := .proxy, dialog_base := none })
    ∧ (∀ attr, QtHandle.getattr ((define_qt_base s ImportOutcome.importError).1.qt_core) attr
        = .error qtProxyError)
    ∧ (∀ attr, QtHandle.getattr ((define_qt_base s ImportOutcome.importError).1.qt_gui) attr
        = .error qtProxyError)
    ∧ (∀ attr m, QtHandle.getattr (QtHandle.real m) attr = .ok (m ++ "." ++ attr)) := by
  refine ⟨?_, fun attr => rfl, fun attr => rfl, fun attr m => rfl⟩
  cases o <;> rfl

end KatanaEngine
